import Mathlib

/-!
Shallow embedding of the ray-tracer core (K0enM/ray_tracer_challenge) over ℚ.

The source computes with f64.  The embedding replaces f64 by ℚ so that every
definition is executable and every concrete evaluation is decidable:
`sqrtQ` models `f64::sqrt` (exact on rationals whose square root is rational,
which covers every square root that claim statements depend on), `powfQ`
models `f64::powf` at the exponents the program uses, and the fuzzy
comparisons of util.rs keep their literal `|a - b| < 1e-5` form.

Rust panics are modeled as `Option` (`Ray.new`, `Matrix4.inverseChecked`,
`Canvas.pixel_at`, the generic matrix product `mulD`); call sites whose
arguments are proved (or evaluated) to satisfy the panicking check use the
underlying total function, as the source does on the happy path.
-/

namespace RayTracer

/-- EPSILON from util.rs. -/
def EPSILON : ℚ := 1 / 100000

/-- FuzzyEq for f64 (util.rs): absolute difference below EPSILON. -/
def fuzzyEq (a b : ℚ) : Prop := |a - b| < EPSILON

instance (a b : ℚ) : Decidable (fuzzyEq a b) :=
  inferInstanceAs (Decidable (|a - b| < EPSILON))

/-- Binary search for the integer square root, one bit of the answer per
step of fuel: returns the largest r below the initial r + 2^fuel with
r² ≤ n once the fuel starts high enough. -/
def sqrtBisect : ℕ → ℕ → ℕ → ℕ
  | 0, _n, r => r
  | fuel + 1, n, r =>
      let c := r + 2 ^ fuel
      sqrtBisect fuel n (if c * c ≤ n then c else r)

/-- Integer square root (floor), by bitwise binary search; log2(n)/2 + 1
bits suffice for any candidate root of n. -/
def isqrt (n : ℕ) : ℕ := sqrtBisect (n.log2 / 2 + 1) n 0

/-- Model of f64::sqrt on the rational embedding.  For q = n/d it returns
isqrt (n·d) / d, which equals the real square root whenever that root is
rational (in particular on perfect squares, √(n/d) = √(n·d)/d); elsewhere
it floors, which no claim statement depends on. -/
def sqrtQ (q : ℚ) : ℚ := (isqrt (q.num.toNat * q.den) : ℚ) / (q.den : ℚ)

/-- Model of f64::powf on the rational embedding, at the natural-number
exponents the program uses (the material shininess, 200.0). -/
def powfQ (b e : ℚ) : ℚ := if e.den = 1 then b ^ e.num.toNat else 0

/-- Tuple (tuple.rs): homogeneous 4-tuple. -/
structure Tuple where
  x : ℚ
  y : ℚ
  z : ℚ
  w : ℚ
deriving DecidableEq, Repr

namespace Tuple

/-- Tuple::new. -/
def new (x y z w : ℚ) : Tuple := ⟨x, y, z, w⟩

/-- Tuple::point: w = 1. -/
def point (x y z : ℚ) : Tuple := ⟨x, y, z, 1⟩

/-- Tuple::vector: w = 0. -/
def vector (x y z : ℚ) : Tuple := ⟨x, y, z, 0⟩

/-- Tuple::is_point: w fuzzy-equal to 1. -/
def isPoint (t : Tuple) : Prop := fuzzyEq t.w 1

/-- Tuple::is_vector: w fuzzy-equal to 0. -/
def isVector (t : Tuple) : Prop := fuzzyEq t.w 0

instance (t : Tuple) : Decidable t.isPoint := inferInstanceAs (Decidable (fuzzyEq _ _))
instance (t : Tuple) : Decidable t.isVector := inferInstanceAs (Decidable (fuzzyEq _ _))

/-- Tuple::magnitude: sqrt of the sum of the squares of x, y, z (w ignored). -/
def magnitude (t : Tuple) : ℚ := sqrtQ (t.x ^ 2 + t.y ^ 2 + t.z ^ 2)

/-- Tuple::normalize: every component divided by the magnitude. -/
def normalize (t : Tuple) : Tuple :=
  ⟨t.x / t.magnitude, t.y / t.magnitude, t.z / t.magnitude, t.w / t.magnitude⟩

/-- Tuple::dot: sum over all four components, w included. -/
def dot (a b : Tuple) : ℚ := a.x * b.x + a.y * b.y + a.z * b.z + a.w * b.w

/-- Tuple::cross: 3-component cross product, result a vector. -/
def cross (a b : Tuple) : Tuple :=
  vector (a.y * b.z - a.z * b.y) (a.z * b.x - a.x * b.z) (a.x * b.y - a.y * b.x)

/-- Add for Tuple. -/
def add (a b : Tuple) : Tuple := ⟨a.x + b.x, a.y + b.y, a.z + b.z, a.w + b.w⟩

/-- Sub for Tuple. -/
def sub (a b : Tuple) : Tuple := ⟨a.x - b.x, a.y - b.y, a.z - b.z, a.w - b.w⟩

/-- Neg for Tuple (tuple.rs subtracts from the zero vector). -/
def neg (a : Tuple) : Tuple := (vector 0 0 0).sub a

/-- Mul of a Tuple by an f64 scalar. -/
def smul (a : Tuple) (s : ℚ) : Tuple := ⟨a.x * s, a.y * s, a.z * s, a.w * s⟩

/-- Div of a Tuple by an f64 scalar. -/
def divS (a : Tuple) (s : ℚ) : Tuple := ⟨a.x / s, a.y / s, a.z / s, a.w / s⟩

/-- FuzzyEq for Tuple: componentwise fuzzy equality. -/
def fuzzyEqT (a b : Tuple) : Prop :=
  fuzzyEq a.x b.x ∧ fuzzyEq a.y b.y ∧ fuzzyEq a.z b.z ∧ fuzzyEq a.w b.w

instance (a b : Tuple) : Decidable (fuzzyEqT a b) :=
  inferInstanceAs (Decidable (_ ∧ _ ∧ _ ∧ _))

/-- Modelled from the spec: `Tuple::reflect` is called by material.rs but its
definition is absent from the staged sources (tuple.rs does not define it).
Spec 4.1: reflect(v, normal) = v − normal·2·(v·dot(normal)). -/
def reflect (v normal : Tuple) : Tuple := v.sub (normal.smul (2 * v.dot normal))

end Tuple

/-- Color (color.rs): floating-point RGB triple. -/
structure Color where
  red : ℚ
  green : ℚ
  blue : ℚ
deriving DecidableEq, Repr

namespace Color

/-- Color::new. -/
def new (red green blue : ℚ) : Color := ⟨red, green, blue⟩

/-- Color::black. -/
def black : Color := ⟨0, 0, 0⟩

/-- Color::white. -/
def white : Color := ⟨1, 1, 1⟩

/-- Add for Color. -/
def add (a b : Color) : Color := ⟨a.red + b.red, a.green + b.green, a.blue + b.blue⟩

/-- Sub for Color. -/
def sub (a b : Color) : Color := ⟨a.red - b.red, a.green - b.green, a.blue - b.blue⟩

/-- Mul of a Color by an f64 scalar. -/
def mulS (a : Color) (s : ℚ) : Color := ⟨a.red * s, a.green * s, a.blue * s⟩

/-- Mul of two Colors (componentwise, the Hadamard product). -/
def mulC (a b : Color) : Color := ⟨a.red * b.red, a.green * b.green, a.blue * b.blue⟩

/-- FuzzyEq for Color: componentwise fuzzy equality. -/
def fuzzyEqC (a b : Color) : Prop :=
  fuzzyEq a.red b.red ∧ fuzzyEq a.green b.green ∧ fuzzyEq a.blue b.blue

instance (a b : Color) : Decidable (fuzzyEqC a b) :=
  inferInstanceAs (Decidable (_ ∧ _ ∧ _))

end Color

/-- Square matrix of dimension D (matrix.rs, `Matrix<const D: usize>`),
row-major: the first index is the row. -/
abbrev MatrixD (D : ℕ) := Fin D → Fin D → ℚ

/-- Matrix of dimension 4, the one the transform pipeline uses. -/
abbrev Matrix4 := MatrixD 4

/-- Matrix of dimension 3. -/
abbrev Matrix3 := MatrixD 3

/-- Matrix of dimension 2. -/
abbrev Matrix2 := MatrixD 2

/-- Matrix built from four explicit rows (the `Matrix::from(data)` literals). -/
def ofRows (r0 r1 r2 r3 : Fin 4 → ℚ) : Matrix4 := ![r0, r1, r2, r3]

/-- Matrix::identity for D = 4. -/
def identity4 : Matrix4 := fun i j => if i = j then 1 else 0

/-- Matrix::tranpose (sic, the spelling of the source) for D = 4. -/
def tranpose (m : Matrix4) : Matrix4 := fun i j => m j i

/-- Matrix::submatrix for D = 4: drop row `r` and column `c`.  The source
walks the rows and columns skipping the removed ones; `Fin.succAbove`
performs exactly that index skip. -/
def submatrix4 (m : Matrix4) (r c : Fin 4) : Matrix3 :=
  fun i j => m (r.succAbove i) (c.succAbove j)

/-- Matrix::submatrix for D = 3. -/
def submatrix3 (m : Matrix3) (r c : Fin 3) : Matrix2 :=
  fun i j => m (r.succAbove i) (c.succAbove j)

/-- Matrix<2>::determinant: ad − bc. -/
def det2 (m : Matrix2) : ℚ := m 0 0 * m 1 1 - m 0 1 * m 1 0

/-- Matrix<3>::minor. -/
def minor3 (m : Matrix3) (r c : Fin 3) : ℚ := det2 (submatrix3 m r c)

/-- Matrix<3>::cofactor: the minor, negated when row+column is odd. -/
def cofactor3 (m : Matrix3) (r c : Fin 3) : ℚ :=
  if (r.val + c.val) % 2 = 0 then minor3 m r c else -minor3 m r c

/-- Matrix<3>::determinant: cofactor expansion along row 0. -/
def det3 (m : Matrix3) : ℚ :=
  cofactor3 m 0 0 * m 0 0 + cofactor3 m 0 1 * m 0 1 + cofactor3 m 0 2 * m 0 2

/-- Matrix<4>::minor. -/
def minor4 (m : Matrix4) (r c : Fin 4) : ℚ := det3 (submatrix4 m r c)

/-- Matrix<4>::cofactor. -/
def cofactor4 (m : Matrix4) (r c : Fin 4) : ℚ :=
  if (r.val + c.val) % 2 = 0 then minor4 m r c else -minor4 m r c

/-- Matrix<4>::determinant: cofactor expansion along row 0. -/
def det4 (m : Matrix4) : ℚ :=
  cofactor4 m 0 0 * m 0 0 + cofactor4 m 0 1 * m 0 1 +
    cofactor4 m 0 2 * m 0 2 + cofactor4 m 0 3 * m 0 3

/-- Matrix<4>::is_invertible: determinant not fuzzy-equal to 0. -/
def isInvertible4 (m : Matrix4) : Prop := ¬ fuzzyEq (det4 m) 0

instance (m : Matrix4) : Decidable (isInvertible4 m) :=
  inferInstanceAs (Decidable (¬ _))

/-- Matrix<4>::inverse, the arithmetic part: entry (column, row) is
cofactor(row, column) / determinant — the transpose is built into the
indexing, as the source comments. -/
def inverse4 (m : Matrix4) : Matrix4 := fun c r => cofactor4 m r c / det4 m

/-- Matrix<4>::inverse with its panic on a non-invertible matrix modeled as
none. -/
def inverseChecked (m : Matrix4) : Option Matrix4 :=
  if isInvertible4 m then some (inverse4 m) else none

/-- Mul of two 4x4 matrices: the generic implementation specialised to D = 4,
where every one of its fixed index accesses 0..3 is in bounds. -/
def mul4 (a b : Matrix4) : Matrix4 := fun row col =>
  a row 0 * b 0 col + a row 1 * b 1 col + a row 2 * b 2 col + a row 3 * b 3 col

/-- Mul of a 4x4 matrix by a Tuple: row·column dot products. -/
def mulTuple (m : Matrix4) (t : Tuple) : Tuple :=
  ⟨m 0 0 * t.x + m 0 1 * t.y + m 0 2 * t.z + m 0 3 * t.w,
   m 1 0 * t.x + m 1 1 * t.y + m 1 2 * t.z + m 1 3 * t.w,
   m 2 0 * t.x + m 2 1 * t.y + m 2 2 * t.z + m 2 3 * t.w,
   m 3 0 * t.x + m 3 1 * t.y + m 3 2 * t.z + m 3 3 * t.w⟩

/-- Matrix::translation: identity with column 3 set to (x, y, z). -/
def translation (x y z : ℚ) : Matrix4 :=
  ofRows ![1, 0, 0, x] ![0, 1, 0, y] ![0, 0, 1, z] ![0, 0, 0, 1]

/-- Matrix::scaling: identity with the diagonal set to (x, y, z, 1). -/
def scaling (x y z : ℚ) : Matrix4 :=
  ofRows ![x, 0, 0, 0] ![0, y, 0, 0] ![0, 0, z, 0] ![0, 0, 0, 1]

/-- Bounds-checked access into a D-dimensional matrix: the Rust index
operation on `[f64; D]`, whose out-of-bounds panic is modeled as none. -/
def getQ {D : ℕ} (a : MatrixD D) (i j : ℕ) : Option ℚ :=
  if hi : i < D then if hj : j < D then some (a ⟨i, hi⟩ ⟨j, hj⟩) else none else none

/-- One entry of the generic `Mul<Self> for Matrix<D>`: the source reads
columns 0, 1, 2, 3 of the left operand and rows 0, 1, 2, 3 of the right one
whatever D is. -/
def mulEntryD {D : ℕ} (a b : MatrixD D) (row col : ℕ) : Option ℚ := do
  let a0 ← getQ a row 0
  let b0 ← getQ b 0 col
  let a1 ← getQ a row 1
  let b1 ← getQ b 1 col
  let a2 ← getQ a row 2
  let b2 ← getQ b 2 col
  let a3 ← getQ a row 3
  let b3 ← getQ b 3 col
  return a0 * b0 + a1 * b1 + a2 * b2 + a3 * b3

/-- Generic `Mul<Self> for Matrix<D>` (matrix.rs lines 115-132), every entry
computed over rows and columns 0..D; none as soon as one fixed index access
0..3 is out of bounds. -/
def mulD {D : ℕ} (a b : MatrixD D) : Option (List (List ℚ)) :=
  (List.range D).mapM fun row => (List.range D).mapM fun col => mulEntryD a b row col

/-- Ray (ray.rs): origin and direction. -/
structure Ray where
  origin : Tuple
  direction : Tuple
deriving DecidableEq, Repr

namespace Ray

/-- Ray::new, whose panic when the origin is not a point or the direction is
not a vector is modeled as none. -/
def new (origin direction : Tuple) : Option Ray :=
  if origin.isPoint ∧ direction.isVector then some ⟨origin, direction⟩ else none

/-- Ray::position: origin + direction·t. -/
def position (r : Ray) (t : ℚ) : Tuple := r.origin.add (r.direction.smul t)

/-- Ray::transform: matrix applied to origin and direction. -/
def transform (r : Ray) (m : Matrix4) : Ray :=
  ⟨mulTuple m r.origin, mulTuple m r.direction⟩

end Ray

/-- LightType (light.rs): only point lights exist. -/
inductive LightType where
  | point
deriving DecidableEq, Repr

/-- Light (light.rs): a point light, position plus intensity. -/
structure Light where
  typ : LightType
  position : Tuple
  intensity : Color
deriving DecidableEq, Repr

namespace Light

/-- Light::point. -/
def point (position : Tuple) (intensity : Color) : Light :=
  ⟨LightType.point, position, intensity⟩

/-- Default for Light: white point light at (-10, 10, -10). -/
def default : Light := point (Tuple.point (-10) 10 (-10)) Color.white

end Light

/-- Material (material.rs).  The struct has exactly these five fields; it
carries no pattern. -/
structure Material where
  color : Color
  ambient : ℚ
  diffuse : ℚ
  specular : ℚ
  shininess : ℚ
deriving DecidableEq, Repr

namespace Material

/-- Default for Material: white, 0.1 / 0.9 / 0.9 / 200. -/
def default : Material := ⟨Color.white, 1/10, 9/10, 9/10, 200⟩

/-- Material::lighting (material.rs lines 30-66), translated branch for
branch.  Note that the source line `-lightv.reflect(normalv)` parses as the negation
of `lightv.reflect(normalv)` (method call binds tighter than unary minus). -/
def lighting (m : Material) (point : Tuple) (light : Light) (eyev normalv : Tuple)
    (in_shadow : Bool) : Color :=
  let effective_color := m.color.mulC light.intensity
  let lightv := (light.position.sub point).normalize
  let ambient := effective_color.mulS m.ambient
  let light_dot_normal := lightv.dot normalv
  let ds : Color × Color :=
    if light_dot_normal < 0 then
      (Color.black, Color.black)
    else
      let diffuse := (effective_color.mulS m.diffuse).mulS light_dot_normal
      let reflectv := (lightv.reflect normalv).neg
      let reflect_dot_eye := reflectv.dot eyev
      if reflect_dot_eye ≤ 0 then
        (diffuse, Color.black)
      else
        (diffuse, (light.intensity.mulS m.specular).mulS (powfQ reflect_dot_eye m.shininess))
  if in_shadow then ambient else (ambient.add ds.1).add ds.2

end Material

/-- Sphere (sphere.rs): transform and material; the geometry is the unit
sphere at the origin in object space. -/
structure Sphere where
  transform : Matrix4
  material : Material
deriving DecidableEq, Repr

/-- Plane (plane.rs): transform and material; the geometry is the XZ plane
in object space. -/
structure Plane where
  transform : Matrix4
  material : Material
deriving DecidableEq, Repr

/-- Shape (shape.rs): tagged union of the two primitives. -/
inductive Shape where
  | sphere (s : Sphere)
  | plane (p : Plane)
deriving DecidableEq, Repr

/-- Intersection (intersection.rs): ray parameter and the object hit. -/
structure Intersection where
  t : ℚ
  object : Shape
deriving DecidableEq, Repr

/-- Comparison used by the sort_by of Intersections::new on t
(`a.t.partial_cmp(&b.t).unwrap()`). -/
def intLE (a b : Intersection) : Prop := a.t ≤ b.t

instance : DecidableRel intLE := fun a b => inferInstanceAs (Decidable (a.t ≤ b.t))

instance : IsTotal Intersection intLE := ⟨fun a b => le_total a.t b.t⟩

instance : IsTrans Intersection intLE := ⟨fun _ _ _ h h' => le_trans h h'⟩

/-- Intersections (intersection.rs): the list of intersections, sorted
ascending by t on construction. -/
structure Intersections where
  intersections : List Intersection
deriving DecidableEq, Repr

namespace Intersections

/-- Intersections::new: sort the list ascending by t.  The
`sort_by` is a comparison sort by t; no claim depends on the order of
entries with equal t, so insertion sort embeds it. -/
def new (xs : List Intersection) : Intersections := ⟨xs.insertionSort intLE⟩

/-- Intersections::hit: the first entry (in sorted order) with t > 0. -/
def hit (xs : Intersections) : Option Intersection :=
  xs.intersections.find? fun i => decide (0 < i.t)

end Intersections

namespace Sphere

/-- Default for Sphere: identity transform, default material. -/
def default : Sphere := ⟨identity4, Material.default⟩

/-- Sphere::intersect (sphere.rs lines 35-52): quadratic on the ray
transformed into object space.  Where the source passes `*self` the field
`object` expects a Shape; Shape::from supplies the conversion, exactly as
plane.rs writes it. -/
def intersect (s : Sphere) (ray : Ray) : Intersections :=
  let object_space_ray := ray.transform (inverse4 s.transform)
  let sphere_to_ray := object_space_ray.origin.sub (Tuple.point 0 0 0)
  let a := object_space_ray.direction.dot object_space_ray.direction
  let b := 2 * object_space_ray.direction.dot sphere_to_ray
  let c := sphere_to_ray.dot sphere_to_ray - 1
  let discriminant := b ^ 2 - 4 * a * c
  if discriminant < 0 then
    Intersections.new []
  else
    Intersections.new
      [⟨(-b - sqrtQ discriminant) / (2 * a), Shape.sphere s⟩,
       ⟨(-b + sqrtQ discriminant) / (2 * a), Shape.sphere s⟩]

/-- Sphere::normal_at (sphere.rs lines 62-69): object point via the inverse
transform, object normal = object point − origin, world normal via the
transposed inverse with w zeroed, then normalized. -/
def normal_at (s : Sphere) (world_point : Tuple) : Tuple :=
  let object_point := mulTuple (inverse4 s.transform) world_point
  let object_normal := object_point.sub (Tuple.point 0 0 0)
  let world_normal := mulTuple (tranpose (inverse4 s.transform)) object_normal
  Tuple.normalize ⟨world_normal.x, world_normal.y, world_normal.z, 0⟩

/-- Modelled from the spec: sphere.rs implements no
`world_point_to_object_point` (the ShapeFuncs impl for Sphere is absent from
the staged sources although shape.rs dispatches to it); the spec glossary
says object space is reached via the inverse transform of the shape, as plane.rs
does. -/
def world_point_to_object_point (s : Sphere) (world_point : Tuple) : Tuple :=
  mulTuple (inverse4 s.transform) world_point

end Sphere

namespace Plane

/-- Default for Plane: identity transform, default material. -/
def default : Plane := ⟨identity4, Material.default⟩

/-- Plane::intersect (plane.rs lines 21-29).  The source tests and solves on
the ray it is handed: no transformation into object space happens. -/
def intersect (p : Plane) (ray : Ray) : Intersections :=
  if |ray.direction.y| < EPSILON then
    Intersections.new []
  else
    Intersections.new [⟨-ray.origin.y / ray.direction.y, Shape.plane p⟩]

/-- Plane::normal_at (plane.rs lines 31-33): the constant object-space
normal (0, 1, 0); the argument is ignored and the transform of the plane is never
applied. -/
def normal_at (_p : Plane) (_object_point : Tuple) : Tuple := Tuple.vector 0 1 0

/-- Plane::world_point_to_object_point. -/
def world_point_to_object_point (p : Plane) (world_point : Tuple) : Tuple :=
  mulTuple (inverse4 p.transform) world_point

end Plane

namespace Shape

/-- ShapeFuncs::intersect for Shape (shape.rs): dispatch on the variant. -/
def intersect : Shape → Ray → Intersections
  | sphere s, ray => s.intersect ray
  | plane p, ray => p.intersect ray

/-- ShapeFuncs::normal_at for Shape (shape.rs lines 30-35): dispatch on the
variant.  The sphere branch receives the world point and converts it
itself; the plane branch returns the constant (0, 1, 0). -/
def normal_at : Shape → Tuple → Tuple
  | sphere s, pt => s.normal_at pt
  | plane p, pt => p.normal_at pt

/-- ShapeFuncs::world_point_to_object_point for Shape. -/
def world_point_to_object_point : Shape → Tuple → Tuple
  | sphere s, pt => s.world_point_to_object_point pt
  | plane p, pt => p.world_point_to_object_point pt

/-- ShapeFuncs::material for Shape. -/
def material : Shape → Material
  | sphere s => s.material
  | plane p => p.material

/-- ShapeFuncs::transform for Shape. -/
def transform : Shape → Matrix4
  | sphere s => s.transform
  | plane p => p.transform

end Shape

/-- StripePattern (pattern.rs). -/
structure StripePattern where
  transform : Matrix4
  color_a : Color
  color_b : Color
deriving DecidableEq, Repr

/-- GradientPattern (pattern.rs). -/
structure GradientPattern where
  transform : Matrix4
  color_a : Color
  color_b : Color
deriving DecidableEq, Repr

/-- RingPattern (pattern.rs). -/
structure RingPattern where
  transform : Matrix4
  color_a : Color
  color_b : Color
deriving DecidableEq, Repr

/-- CheckerPattern3D (pattern.rs). -/
structure CheckerPattern3D where
  transform : Matrix4
  color_a : Color
  color_b : Color
deriving DecidableEq, Repr

/-- Default for StripePattern: identity, white, black (the other three
pattern defaults are identical). -/
def StripePattern.default : StripePattern := ⟨identity4, Color.white, Color.black⟩

/-- Pattern (pattern.rs): tagged union of the four procedural patterns. -/
inductive Pattern where
  | stripe (s : StripePattern)
  | gradient (g : GradientPattern)
  | ring (r : RingPattern)
  | checker3d (c : CheckerPattern3D)
deriving DecidableEq, Repr

namespace Pattern

/-- PatternFuncs::color_at (pattern.rs).  The stripe and checker tests are
`floor(...) as i64 % 2 == 0`: the truncating remainder of Rust and Int.emod agree
on the equality-with-zero test, which only reads parity.  The ring pattern
truncates the nonnegative sqrt toward zero, which is its floor. -/
def color_at : Pattern → Tuple → Color
  | stripe s, pt => if (⌊pt.x⌋ % 2 : ℤ) = 0 then s.color_a else s.color_b
  | gradient g, pt => g.color_a.add ((g.color_b.sub g.color_a).mulS (pt.x - ⌊pt.x⌋))
  | ring r, pt =>
      if (⌊sqrtQ (pt.x ^ 2 + pt.z ^ 2)⌋ % 2 : ℤ) = 0 then r.color_a else r.color_b
  | checker3d c, pt =>
      if ((⌊pt.x⌋ + ⌊pt.y⌋ + ⌊pt.z⌋) % 2 : ℤ) = 0 then c.color_a else c.color_b

/-- PatternFuncs::transform (pattern.rs). -/
def transform : Pattern → Matrix4
  | stripe s => s.transform
  | gradient g => g.transform
  | ring r => r.transform
  | checker3d c => c.transform

/-- Pattern::color_at_object (pattern.rs lines 16-23): the point goes from
world space to object space by the inverse transform of the shape, then to
pattern space by the own inverse transform of the pattern. -/
def color_at_object (p : Pattern) (object : Shape) (point : Tuple) : Color :=
  let object_point := object.world_point_to_object_point point
  let pattern_point := mulTuple (inverse4 p.transform) object_point
  p.color_at pattern_point

end Pattern

/-- ComputedIntersection (intersection.rs): shading inputs derived from an
intersection and the ray that produced it. -/
structure ComputedIntersection where
  intersection : Intersection
  point : Tuple
  over_point : Tuple
  eyev : Tuple
  normalv : Tuple
  inside : Bool
deriving DecidableEq, Repr

/-- Intersection::as_computed (intersection.rs). -/
def Intersection.as_computed (i : Intersection) (ray : Ray) : ComputedIntersection :=
  let point := ray.position i.t
  let eyev := ray.direction.neg
  let normalv0 := i.object.normal_at point
  let inside := decide (normalv0.dot eyev < 0)
  let normalv := if normalv0.dot eyev < 0 then normalv0.neg else normalv0
  let over_point := point.add (normalv.smul EPSILON)
  ⟨i, point, over_point, eyev, normalv, inside⟩

/-- World (world.rs): shapes plus the single light. -/
structure World where
  objects : List Shape
  light_source : Light
deriving DecidableEq, Repr

namespace World

/-- World::is_shadowed (world.rs): ray from the point toward the light; a
shadow exists iff there is a hit nearer than the light.  The source builds
the ray with Ray::new, whose point/vector check holds at every call this
file evaluates. -/
def is_shadowed (w : World) (point : Tuple) : Bool :=
  let v := w.light_source.position.sub point
  let distance := v.magnitude
  let direction := v.normalize
  let ray : Ray := ⟨point, direction⟩
  match (Intersections.new ((w.objects.flatMap fun o => (o.intersect ray).intersections))).hit with
  | none => false
  | some i => decide (i.t < distance)

/-- World::intersect (world.rs): the intersections of every shape, merged and
re-sorted by Intersections::new. -/
def intersect (w : World) (ray : Ray) : Intersections :=
  Intersections.new (w.objects.flatMap fun o => (o.intersect ray).intersections)

/-- World::shade_hit (world.rs): shadow-test the over_point, then light the
material of the hit. -/
def shade_hit (w : World) (comp : ComputedIntersection) : Color :=
  let in_shadow := w.is_shadowed comp.over_point
  comp.intersection.object.material.lighting comp.point w.light_source comp.eyev
    comp.normalv in_shadow

/-- World::color_at (world.rs): black when nothing is hit, otherwise shade
the hit. -/
def color_at (w : World) (ray : Ray) : Color :=
  match (w.intersect ray).hit with
  | none => Color.black
  | some i => w.shade_hit (i.as_computed ray)

end World

/-- Canvas (canvas.rs): width × height pixel buffer, row-major. -/
structure Canvas where
  width : ℕ
  height : ℕ
  pixels : List Color
deriving DecidableEq, Repr

namespace Canvas

/-- Canvas::new: width·height pixels, all black. -/
def new (width height : ℕ) : Canvas := ⟨width, height, List.replicate (width * height) Color.black⟩

/-- Canvas::get_pixel_index: y·width + x. -/
def get_pixel_index (c : Canvas) (x y : ℕ) : ℕ := y * c.width + x

/-- Canvas::pixel_at, its out-of-bounds panic modeled as none. -/
def pixel_at (c : Canvas) (x y : ℕ) : Option Color := c.pixels.get? (c.get_pixel_index x y)

/-- Canvas::write_pixel (canvas.rs lines 23-26). -/
def write_pixel (c : Canvas) (x y : ℕ) (color : Color) : Canvas :=
  ⟨c.width, c.height, c.pixels.set (c.get_pixel_index x y) color⟩

end Canvas

/-- Camera (camera.rs).  The derived fields half_width / half_height /
pixel_size are carried as data; Camera::new fills them from tan(fov/2),
which ray_for_pixel and render never read fov for again. -/
structure Camera where
  hsize : ℕ
  vsize : ℕ
  fov : ℚ
  transform : Matrix4
  half_width : ℚ
  half_height : ℚ
  pixel_size : ℚ
deriving DecidableEq, Repr

namespace Camera

/-- Camera::ray_for_pixel (camera.rs): sub-pixel-centered offsets, wall
point at z = −1 and the origin both taken through the inverse view
transform, direction normalized.  The concluding Ray::new check holds for
every pixel (the transformed point keeps w = 1 and the normalized
difference keeps w = 0 up to epsilon at the inputs this file evaluates). -/
def ray_for_pixel (c : Camera) (x y : ℕ) : Ray :=
  let xoffset := ((x : ℚ) + 1/2) * c.pixel_size
  let yoffset := ((y : ℚ) + 1/2) * c.pixel_size
  let world_x := c.half_width - xoffset
  let world_y := c.half_height - yoffset
  let inverse_view_transform := inverse4 c.transform
  let wall_point := mulTuple inverse_view_transform (Tuple.point world_x world_y (-1))
  let origin := mulTuple inverse_view_transform (Tuple.point 0 0 0)
  let direction := (wall_point.sub origin).normalize
  ⟨origin, direction⟩

/-- Camera::render (camera.rs lines 67-93): one color_at per grid position
of `(0..hsize - 1).cartesian_product(0..vsize - 1)`, each written to its own
pixel of a canvas of dimensions (hsize, vsize).  The rayon tasks write
disjoint pixels under a mutex, so the parallel loop is order-independent and
embeds as this sequential fold. -/
def render (c : Camera) (w : World) : Canvas :=
  ((List.range (c.hsize - 1)).flatMap fun x => (List.range (c.vsize - 1)).map fun y => (x, y)).foldl
    (fun canvas xy => canvas.write_pixel xy.1 xy.2 (w.color_at (c.ray_for_pixel xy.1 xy.2)))
    (Canvas.new c.hsize c.vsize)

end Camera

/-- FuzzyEq for Matrix (matrix.rs): componentwise fuzzy equality over all
rows and columns. -/
def fuzzyEq4 (a b : Matrix4) : Prop := ∀ i j, fuzzyEq (a i j) (b i j)

/-- Shape value used by concrete intersection lists. -/
def defaultShape : Shape := Shape.sphere Sphere.default

/-- Object-space ray of Sphere::intersect: the given ray transformed by the
inverse transform of the sphere. -/
def sphereObjectRay (s : Sphere) (r : Ray) : Ray := r.transform (inverse4 s.transform)

/-- Coefficient a of the sphere quadratic: dir·dir on the object-space ray. -/
def sphereA (s : Sphere) (r : Ray) : ℚ :=
  (sphereObjectRay s r).direction.dot (sphereObjectRay s r).direction

/-- Coefficient b of the sphere quadratic: 2·dir·L with
L = origin − (0,0,0). -/
def sphereB (s : Sphere) (r : Ray) : ℚ :=
  2 * (sphereObjectRay s r).direction.dot ((sphereObjectRay s r).origin.sub (Tuple.point 0 0 0))

/-- Coefficient c of the sphere quadratic: L·L − 1. -/
def sphereC (s : Sphere) (r : Ray) : ℚ :=
  ((sphereObjectRay s r).origin.sub (Tuple.point 0 0 0)).dot
    ((sphereObjectRay s r).origin.sub (Tuple.point 0 0 0)) - 1

/-- Discriminant of the sphere quadratic: b² − 4ac. -/
def sphereDisc (s : Sphere) (r : Ray) : ℚ :=
  sphereB s r ^ 2 - 4 * sphereA s r * sphereC s r

/-- Light used by the C6 scenario: white point light at (0,0,−10). -/
def c6Light : Light := Light.point (Tuple.point 0 0 (-10)) Color.white

/-- Plane of the C2 evaluation: the XZ plane translated up to y = 1. -/
def c2Plane : Plane := ⟨translation 0 1 0, Material.default⟩

/-- Ray of the C2 evaluation: from the origin straight up. -/
def c2Ray : Ray := ⟨Tuple.point 0 0 0, Tuple.vector 0 1 0⟩

/-- Transform of the C3 evaluation: rotation about z with cosine 3/5 and
sine 4/5 (orthogonal, determinant 1, so its inverse-transpose is itself). -/
def c3Matrix : Matrix4 := ofRows ![3/5, -4/5, 0, 0] ![4/5, 3/5, 0, 0] ![0, 0, 1, 0] ![0, 0, 0, 1]

/-- Plane of the C3 evaluation. -/
def c3Plane : Plane := ⟨c3Matrix, Material.default⟩

/-- Modelled from the spec for comparison (spec 4.4): lighting with the
optional pattern the spec describes — the pattern, when present, overrides
material.color per-point (through Pattern::color_at_object) before the
intensity multiply; otherwise the body is that of Material::lighting.  The staged
Material has no pattern field, so the pattern and the shaded object are
extra arguments here. -/
def lightingSpec (m : Material) (pattern : Option Pattern) (object : Shape) (point : Tuple)
    (light : Light) (eyev normalv : Tuple) (in_shadow : Bool) : Color :=
  let base_color :=
    match pattern with
    | some pat => pat.color_at_object object point
    | none => m.color
  let effective_color := base_color.mulC light.intensity
  let lightv := (light.position.sub point).normalize
  let ambient := effective_color.mulS m.ambient
  let light_dot_normal := lightv.dot normalv
  let ds : Color × Color :=
    if light_dot_normal < 0 then
      (Color.black, Color.black)
    else
      let diffuse := (effective_color.mulS m.diffuse).mulS light_dot_normal
      let reflectv := (lightv.reflect normalv).neg
      let reflect_dot_eye := reflectv.dot eyev
      if reflect_dot_eye ≤ 0 then
        (diffuse, Color.black)
      else
        (diffuse, (light.intensity.mulS m.specular).mulS (powfQ reflect_dot_eye m.shininess))
  if in_shadow then ambient else (ambient.add ds.1).add ds.2

/-- Material of the C1 world: pure red ambient, no diffuse or specular, so
every hit shades to red whatever the shadow test says. -/
def c1Material : Material := ⟨Color.new 1 0 0, 1, 0, 0, 200⟩

/-- Light of the C1 world, placed so the shadow ray is axis-aligned. -/
def c1Light : Light := Light.point (Tuple.point 0 0 (9 + 1/100000)) Color.white

/-- World of the C1 evaluation: one identity unit sphere around the camera. -/
def c1World : World := ⟨[Shape.sphere ⟨identity4, c1Material⟩], c1Light⟩

/-- Camera of the C1 evaluation: exactly Camera::new(1, 1, 0.0) — hsize =
vsize = 1, and tan(0/2) = 0 makes half_width = half_height = pixel_size = 0;
fov itself is never read by ray_for_pixel or render. -/
def c1Camera : Camera := ⟨1, 1, 0, identity4, 0, 0, 0⟩

set_option maxRecDepth 8000

/-- Values of Fin 4 succAbove on every concrete index pair, for rewriting. -/
theorem sa4 : ((0:Fin 4).succAbove 0 = 1) ∧ ((0:Fin 4).succAbove 1 = 2) ∧ ((0:Fin 4).succAbove 2 = 3)
    ∧ ((1:Fin 4).succAbove 0 = 0) ∧ ((1:Fin 4).succAbove 1 = 2) ∧ ((1:Fin 4).succAbove 2 = 3)
    ∧ ((2:Fin 4).succAbove 0 = 0) ∧ ((2:Fin 4).succAbove 1 = 1) ∧ ((2:Fin 4).succAbove 2 = 3)
    ∧ ((3:Fin 4).succAbove 0 = 0) ∧ ((3:Fin 4).succAbove 1 = 1) ∧ ((3:Fin 4).succAbove 2 = 2) := by
  decide

/-- Values of Fin 3 succAbove on every concrete index pair. -/
theorem sa3 : ((0:Fin 3).succAbove 0 = 1) ∧ ((0:Fin 3).succAbove 1 = 2)
    ∧ ((1:Fin 3).succAbove 0 = 0) ∧ ((1:Fin 3).succAbove 1 = 2)
    ∧ ((2:Fin 3).succAbove 0 = 0) ∧ ((2:Fin 3).succAbove 1 = 1) := by decide

/-- Values of the Fin 4 literals as naturals. -/
theorem vals4 : ((0:Fin 4).val = 0) ∧ ((1:Fin 4).val = 1) ∧ ((2:Fin 4).val = 2)
    ∧ ((3:Fin 4).val = 3) := by decide

/-- Values of the Fin 3 literals as naturals. -/
theorem vals3 : ((0:Fin 3).val = 0) ∧ ((1:Fin 3).val = 1) ∧ ((2:Fin 3).val = 2) := by decide

set_option maxHeartbeats 1600000 in
/-- Row 0 against the cofactors of row 0. -/
theorem rowCof00 (m : Matrix4) :
    m 0 0 * cofactor4 m 0 0 + m 0 1 * cofactor4 m 0 1 +
      m 0 2 * cofactor4 m 0 2 + m 0 3 * cofactor4 m 0 3 = det4 m := by
  simp only [det4, cofactor4, minor4, det3, cofactor3, minor3, det2, submatrix4, submatrix3,
      sa4.1, sa4.2.1, sa4.2.2.1, sa4.2.2.2.1, sa4.2.2.2.2.1, sa4.2.2.2.2.2.1,
      sa4.2.2.2.2.2.2.1, sa4.2.2.2.2.2.2.2.1, sa4.2.2.2.2.2.2.2.2.1,
      sa4.2.2.2.2.2.2.2.2.2.1, sa4.2.2.2.2.2.2.2.2.2.2.1, sa4.2.2.2.2.2.2.2.2.2.2.2,
      sa3.1, sa3.2.1, sa3.2.2.1, sa3.2.2.2.1, sa3.2.2.2.2.1, sa3.2.2.2.2.2,
      vals4.1, vals4.2.1, vals4.2.2.1, vals4.2.2.2, vals3.1, vals3.2.1, vals3.2.2]
  norm_num
  ring

set_option maxHeartbeats 1600000 in
/-- Row 0 against the cofactors of row 1. -/
theorem rowCof01 (m : Matrix4) :
    m 0 0 * cofactor4 m 1 0 + m 0 1 * cofactor4 m 1 1 +
      m 0 2 * cofactor4 m 1 2 + m 0 3 * cofactor4 m 1 3 = 0 := by
  simp only [det4, cofactor4, minor4, det3, cofactor3, minor3, det2, submatrix4, submatrix3,
      sa4.1, sa4.2.1, sa4.2.2.1, sa4.2.2.2.1, sa4.2.2.2.2.1, sa4.2.2.2.2.2.1,
      sa4.2.2.2.2.2.2.1, sa4.2.2.2.2.2.2.2.1, sa4.2.2.2.2.2.2.2.2.1,
      sa4.2.2.2.2.2.2.2.2.2.1, sa4.2.2.2.2.2.2.2.2.2.2.1, sa4.2.2.2.2.2.2.2.2.2.2.2,
      sa3.1, sa3.2.1, sa3.2.2.1, sa3.2.2.2.1, sa3.2.2.2.2.1, sa3.2.2.2.2.2,
      vals4.1, vals4.2.1, vals4.2.2.1, vals4.2.2.2, vals3.1, vals3.2.1, vals3.2.2]
  norm_num
  ring

set_option maxHeartbeats 1600000 in
/-- Row 0 against the cofactors of row 2. -/
theorem rowCof02 (m : Matrix4) :
    m 0 0 * cofactor4 m 2 0 + m 0 1 * cofactor4 m 2 1 +
      m 0 2 * cofactor4 m 2 2 + m 0 3 * cofactor4 m 2 3 = 0 := by
  simp only [det4, cofactor4, minor4, det3, cofactor3, minor3, det2, submatrix4, submatrix3,
      sa4.1, sa4.2.1, sa4.2.2.1, sa4.2.2.2.1, sa4.2.2.2.2.1, sa4.2.2.2.2.2.1,
      sa4.2.2.2.2.2.2.1, sa4.2.2.2.2.2.2.2.1, sa4.2.2.2.2.2.2.2.2.1,
      sa4.2.2.2.2.2.2.2.2.2.1, sa4.2.2.2.2.2.2.2.2.2.2.1, sa4.2.2.2.2.2.2.2.2.2.2.2,
      sa3.1, sa3.2.1, sa3.2.2.1, sa3.2.2.2.1, sa3.2.2.2.2.1, sa3.2.2.2.2.2,
      vals4.1, vals4.2.1, vals4.2.2.1, vals4.2.2.2, vals3.1, vals3.2.1, vals3.2.2]
  norm_num
  ring

set_option maxHeartbeats 1600000 in
/-- Row 0 against the cofactors of row 3. -/
theorem rowCof03 (m : Matrix4) :
    m 0 0 * cofactor4 m 3 0 + m 0 1 * cofactor4 m 3 1 +
      m 0 2 * cofactor4 m 3 2 + m 0 3 * cofactor4 m 3 3 = 0 := by
  simp only [det4, cofactor4, minor4, det3, cofactor3, minor3, det2, submatrix4, submatrix3,
      sa4.1, sa4.2.1, sa4.2.2.1, sa4.2.2.2.1, sa4.2.2.2.2.1, sa4.2.2.2.2.2.1,
      sa4.2.2.2.2.2.2.1, sa4.2.2.2.2.2.2.2.1, sa4.2.2.2.2.2.2.2.2.1,
      sa4.2.2.2.2.2.2.2.2.2.1, sa4.2.2.2.2.2.2.2.2.2.2.1, sa4.2.2.2.2.2.2.2.2.2.2.2,
      sa3.1, sa3.2.1, sa3.2.2.1, sa3.2.2.2.1, sa3.2.2.2.2.1, sa3.2.2.2.2.2,
      vals4.1, vals4.2.1, vals4.2.2.1, vals4.2.2.2, vals3.1, vals3.2.1, vals3.2.2]
  norm_num
  ring

set_option maxHeartbeats 1600000 in
/-- Row 1 against the cofactors of row 0. -/
theorem rowCof10 (m : Matrix4) :
    m 1 0 * cofactor4 m 0 0 + m 1 1 * cofactor4 m 0 1 +
      m 1 2 * cofactor4 m 0 2 + m 1 3 * cofactor4 m 0 3 = 0 := by
  simp only [det4, cofactor4, minor4, det3, cofactor3, minor3, det2, submatrix4, submatrix3,
      sa4.1, sa4.2.1, sa4.2.2.1, sa4.2.2.2.1, sa4.2.2.2.2.1, sa4.2.2.2.2.2.1,
      sa4.2.2.2.2.2.2.1, sa4.2.2.2.2.2.2.2.1, sa4.2.2.2.2.2.2.2.2.1,
      sa4.2.2.2.2.2.2.2.2.2.1, sa4.2.2.2.2.2.2.2.2.2.2.1, sa4.2.2.2.2.2.2.2.2.2.2.2,
      sa3.1, sa3.2.1, sa3.2.2.1, sa3.2.2.2.1, sa3.2.2.2.2.1, sa3.2.2.2.2.2,
      vals4.1, vals4.2.1, vals4.2.2.1, vals4.2.2.2, vals3.1, vals3.2.1, vals3.2.2]
  norm_num
  ring

set_option maxHeartbeats 1600000 in
/-- Row 1 against the cofactors of row 1. -/
theorem rowCof11 (m : Matrix4) :
    m 1 0 * cofactor4 m 1 0 + m 1 1 * cofactor4 m 1 1 +
      m 1 2 * cofactor4 m 1 2 + m 1 3 * cofactor4 m 1 3 = det4 m := by
  simp only [det4, cofactor4, minor4, det3, cofactor3, minor3, det2, submatrix4, submatrix3,
      sa4.1, sa4.2.1, sa4.2.2.1, sa4.2.2.2.1, sa4.2.2.2.2.1, sa4.2.2.2.2.2.1,
      sa4.2.2.2.2.2.2.1, sa4.2.2.2.2.2.2.2.1, sa4.2.2.2.2.2.2.2.2.1,
      sa4.2.2.2.2.2.2.2.2.2.1, sa4.2.2.2.2.2.2.2.2.2.2.1, sa4.2.2.2.2.2.2.2.2.2.2.2,
      sa3.1, sa3.2.1, sa3.2.2.1, sa3.2.2.2.1, sa3.2.2.2.2.1, sa3.2.2.2.2.2,
      vals4.1, vals4.2.1, vals4.2.2.1, vals4.2.2.2, vals3.1, vals3.2.1, vals3.2.2]
  norm_num
  ring

set_option maxHeartbeats 1600000 in
/-- Row 1 against the cofactors of row 2. -/
theorem rowCof12 (m : Matrix4) :
    m 1 0 * cofactor4 m 2 0 + m 1 1 * cofactor4 m 2 1 +
      m 1 2 * cofactor4 m 2 2 + m 1 3 * cofactor4 m 2 3 = 0 := by
  simp only [det4, cofactor4, minor4, det3, cofactor3, minor3, det2, submatrix4, submatrix3,
      sa4.1, sa4.2.1, sa4.2.2.1, sa4.2.2.2.1, sa4.2.2.2.2.1, sa4.2.2.2.2.2.1,
      sa4.2.2.2.2.2.2.1, sa4.2.2.2.2.2.2.2.1, sa4.2.2.2.2.2.2.2.2.1,
      sa4.2.2.2.2.2.2.2.2.2.1, sa4.2.2.2.2.2.2.2.2.2.2.1, sa4.2.2.2.2.2.2.2.2.2.2.2,
      sa3.1, sa3.2.1, sa3.2.2.1, sa3.2.2.2.1, sa3.2.2.2.2.1, sa3.2.2.2.2.2,
      vals4.1, vals4.2.1, vals4.2.2.1, vals4.2.2.2, vals3.1, vals3.2.1, vals3.2.2]
  norm_num
  ring

set_option maxHeartbeats 1600000 in
/-- Row 1 against the cofactors of row 3. -/
theorem rowCof13 (m : Matrix4) :
    m 1 0 * cofactor4 m 3 0 + m 1 1 * cofactor4 m 3 1 +
      m 1 2 * cofactor4 m 3 2 + m 1 3 * cofactor4 m 3 3 = 0 := by
  simp only [det4, cofactor4, minor4, det3, cofactor3, minor3, det2, submatrix4, submatrix3,
      sa4.1, sa4.2.1, sa4.2.2.1, sa4.2.2.2.1, sa4.2.2.2.2.1, sa4.2.2.2.2.2.1,
      sa4.2.2.2.2.2.2.1, sa4.2.2.2.2.2.2.2.1, sa4.2.2.2.2.2.2.2.2.1,
      sa4.2.2.2.2.2.2.2.2.2.1, sa4.2.2.2.2.2.2.2.2.2.2.1, sa4.2.2.2.2.2.2.2.2.2.2.2,
      sa3.1, sa3.2.1, sa3.2.2.1, sa3.2.2.2.1, sa3.2.2.2.2.1, sa3.2.2.2.2.2,
      vals4.1, vals4.2.1, vals4.2.2.1, vals4.2.2.2, vals3.1, vals3.2.1, vals3.2.2]
  norm_num
  ring

set_option maxHeartbeats 1600000 in
/-- Row 2 against the cofactors of row 0. -/
theorem rowCof20 (m : Matrix4) :
    m 2 0 * cofactor4 m 0 0 + m 2 1 * cofactor4 m 0 1 +
      m 2 2 * cofactor4 m 0 2 + m 2 3 * cofactor4 m 0 3 = 0 := by
  simp only [det4, cofactor4, minor4, det3, cofactor3, minor3, det2, submatrix4, submatrix3,
      sa4.1, sa4.2.1, sa4.2.2.1, sa4.2.2.2.1, sa4.2.2.2.2.1, sa4.2.2.2.2.2.1,
      sa4.2.2.2.2.2.2.1, sa4.2.2.2.2.2.2.2.1, sa4.2.2.2.2.2.2.2.2.1,
      sa4.2.2.2.2.2.2.2.2.2.1, sa4.2.2.2.2.2.2.2.2.2.2.1, sa4.2.2.2.2.2.2.2.2.2.2.2,
      sa3.1, sa3.2.1, sa3.2.2.1, sa3.2.2.2.1, sa3.2.2.2.2.1, sa3.2.2.2.2.2,
      vals4.1, vals4.2.1, vals4.2.2.1, vals4.2.2.2, vals3.1, vals3.2.1, vals3.2.2]
  norm_num
  ring

set_option maxHeartbeats 1600000 in
/-- Row 2 against the cofactors of row 1. -/
theorem rowCof21 (m : Matrix4) :
    m 2 0 * cofactor4 m 1 0 + m 2 1 * cofactor4 m 1 1 +
      m 2 2 * cofactor4 m 1 2 + m 2 3 * cofactor4 m 1 3 = 0 := by
  simp only [det4, cofactor4, minor4, det3, cofactor3, minor3, det2, submatrix4, submatrix3,
      sa4.1, sa4.2.1, sa4.2.2.1, sa4.2.2.2.1, sa4.2.2.2.2.1, sa4.2.2.2.2.2.1,
      sa4.2.2.2.2.2.2.1, sa4.2.2.2.2.2.2.2.1, sa4.2.2.2.2.2.2.2.2.1,
      sa4.2.2.2.2.2.2.2.2.2.1, sa4.2.2.2.2.2.2.2.2.2.2.1, sa4.2.2.2.2.2.2.2.2.2.2.2,
      sa3.1, sa3.2.1, sa3.2.2.1, sa3.2.2.2.1, sa3.2.2.2.2.1, sa3.2.2.2.2.2,
      vals4.1, vals4.2.1, vals4.2.2.1, vals4.2.2.2, vals3.1, vals3.2.1, vals3.2.2]
  norm_num
  ring

set_option maxHeartbeats 1600000 in
/-- Row 2 against the cofactors of row 2. -/
theorem rowCof22 (m : Matrix4) :
    m 2 0 * cofactor4 m 2 0 + m 2 1 * cofactor4 m 2 1 +
      m 2 2 * cofactor4 m 2 2 + m 2 3 * cofactor4 m 2 3 = det4 m := by
  simp only [det4, cofactor4, minor4, det3, cofactor3, minor3, det2, submatrix4, submatrix3,
      sa4.1, sa4.2.1, sa4.2.2.1, sa4.2.2.2.1, sa4.2.2.2.2.1, sa4.2.2.2.2.2.1,
      sa4.2.2.2.2.2.2.1, sa4.2.2.2.2.2.2.2.1, sa4.2.2.2.2.2.2.2.2.1,
      sa4.2.2.2.2.2.2.2.2.2.1, sa4.2.2.2.2.2.2.2.2.2.2.1, sa4.2.2.2.2.2.2.2.2.2.2.2,
      sa3.1, sa3.2.1, sa3.2.2.1, sa3.2.2.2.1, sa3.2.2.2.2.1, sa3.2.2.2.2.2,
      vals4.1, vals4.2.1, vals4.2.2.1, vals4.2.2.2, vals3.1, vals3.2.1, vals3.2.2]
  norm_num
  ring

set_option maxHeartbeats 1600000 in
/-- Row 2 against the cofactors of row 3. -/
theorem rowCof23 (m : Matrix4) :
    m 2 0 * cofactor4 m 3 0 + m 2 1 * cofactor4 m 3 1 +
      m 2 2 * cofactor4 m 3 2 + m 2 3 * cofactor4 m 3 3 = 0 := by
  simp only [det4, cofactor4, minor4, det3, cofactor3, minor3, det2, submatrix4, submatrix3,
      sa4.1, sa4.2.1, sa4.2.2.1, sa4.2.2.2.1, sa4.2.2.2.2.1, sa4.2.2.2.2.2.1,
      sa4.2.2.2.2.2.2.1, sa4.2.2.2.2.2.2.2.1, sa4.2.2.2.2.2.2.2.2.1,
      sa4.2.2.2.2.2.2.2.2.2.1, sa4.2.2.2.2.2.2.2.2.2.2.1, sa4.2.2.2.2.2.2.2.2.2.2.2,
      sa3.1, sa3.2.1, sa3.2.2.1, sa3.2.2.2.1, sa3.2.2.2.2.1, sa3.2.2.2.2.2,
      vals4.1, vals4.2.1, vals4.2.2.1, vals4.2.2.2, vals3.1, vals3.2.1, vals3.2.2]
  norm_num
  ring

set_option maxHeartbeats 1600000 in
/-- Row 3 against the cofactors of row 0. -/
theorem rowCof30 (m : Matrix4) :
    m 3 0 * cofactor4 m 0 0 + m 3 1 * cofactor4 m 0 1 +
      m 3 2 * cofactor4 m 0 2 + m 3 3 * cofactor4 m 0 3 = 0 := by
  simp only [det4, cofactor4, minor4, det3, cofactor3, minor3, det2, submatrix4, submatrix3,
      sa4.1, sa4.2.1, sa4.2.2.1, sa4.2.2.2.1, sa4.2.2.2.2.1, sa4.2.2.2.2.2.1,
      sa4.2.2.2.2.2.2.1, sa4.2.2.2.2.2.2.2.1, sa4.2.2.2.2.2.2.2.2.1,
      sa4.2.2.2.2.2.2.2.2.2.1, sa4.2.2.2.2.2.2.2.2.2.2.1, sa4.2.2.2.2.2.2.2.2.2.2.2,
      sa3.1, sa3.2.1, sa3.2.2.1, sa3.2.2.2.1, sa3.2.2.2.2.1, sa3.2.2.2.2.2,
      vals4.1, vals4.2.1, vals4.2.2.1, vals4.2.2.2, vals3.1, vals3.2.1, vals3.2.2]
  norm_num
  ring

set_option maxHeartbeats 1600000 in
/-- Row 3 against the cofactors of row 1. -/
theorem rowCof31 (m : Matrix4) :
    m 3 0 * cofactor4 m 1 0 + m 3 1 * cofactor4 m 1 1 +
      m 3 2 * cofactor4 m 1 2 + m 3 3 * cofactor4 m 1 3 = 0 := by
  simp only [det4, cofactor4, minor4, det3, cofactor3, minor3, det2, submatrix4, submatrix3,
      sa4.1, sa4.2.1, sa4.2.2.1, sa4.2.2.2.1, sa4.2.2.2.2.1, sa4.2.2.2.2.2.1,
      sa4.2.2.2.2.2.2.1, sa4.2.2.2.2.2.2.2.1, sa4.2.2.2.2.2.2.2.2.1,
      sa4.2.2.2.2.2.2.2.2.2.1, sa4.2.2.2.2.2.2.2.2.2.2.1, sa4.2.2.2.2.2.2.2.2.2.2.2,
      sa3.1, sa3.2.1, sa3.2.2.1, sa3.2.2.2.1, sa3.2.2.2.2.1, sa3.2.2.2.2.2,
      vals4.1, vals4.2.1, vals4.2.2.1, vals4.2.2.2, vals3.1, vals3.2.1, vals3.2.2]
  norm_num
  ring

set_option maxHeartbeats 1600000 in
/-- Row 3 against the cofactors of row 2. -/
theorem rowCof32 (m : Matrix4) :
    m 3 0 * cofactor4 m 2 0 + m 3 1 * cofactor4 m 2 1 +
      m 3 2 * cofactor4 m 2 2 + m 3 3 * cofactor4 m 2 3 = 0 := by
  simp only [det4, cofactor4, minor4, det3, cofactor3, minor3, det2, submatrix4, submatrix3,
      sa4.1, sa4.2.1, sa4.2.2.1, sa4.2.2.2.1, sa4.2.2.2.2.1, sa4.2.2.2.2.2.1,
      sa4.2.2.2.2.2.2.1, sa4.2.2.2.2.2.2.2.1, sa4.2.2.2.2.2.2.2.2.1,
      sa4.2.2.2.2.2.2.2.2.2.1, sa4.2.2.2.2.2.2.2.2.2.2.1, sa4.2.2.2.2.2.2.2.2.2.2.2,
      sa3.1, sa3.2.1, sa3.2.2.1, sa3.2.2.2.1, sa3.2.2.2.2.1, sa3.2.2.2.2.2,
      vals4.1, vals4.2.1, vals4.2.2.1, vals4.2.2.2, vals3.1, vals3.2.1, vals3.2.2]
  norm_num
  ring

set_option maxHeartbeats 1600000 in
/-- Row 3 against the cofactors of row 3. -/
theorem rowCof33 (m : Matrix4) :
    m 3 0 * cofactor4 m 3 0 + m 3 1 * cofactor4 m 3 1 +
      m 3 2 * cofactor4 m 3 2 + m 3 3 * cofactor4 m 3 3 = det4 m := by
  simp only [det4, cofactor4, minor4, det3, cofactor3, minor3, det2, submatrix4, submatrix3,
      sa4.1, sa4.2.1, sa4.2.2.1, sa4.2.2.2.1, sa4.2.2.2.2.1, sa4.2.2.2.2.2.1,
      sa4.2.2.2.2.2.2.1, sa4.2.2.2.2.2.2.2.1, sa4.2.2.2.2.2.2.2.2.1,
      sa4.2.2.2.2.2.2.2.2.2.1, sa4.2.2.2.2.2.2.2.2.2.2.1, sa4.2.2.2.2.2.2.2.2.2.2.2,
      sa3.1, sa3.2.1, sa3.2.2.1, sa3.2.2.2.1, sa3.2.2.2.2.1, sa3.2.2.2.2.2,
      vals4.1, vals4.2.1, vals4.2.2.1, vals4.2.2.2, vals3.1, vals3.2.1, vals3.2.2]
  norm_num
  ring

/-- Laplace expansion of row i against the cofactors of row j: the
determinant on the diagonal, zero off it. -/
theorem row_cofactor_expansion (m : Matrix4) (i j : Fin 4) :
    m i 0 * cofactor4 m j 0 + m i 1 * cofactor4 m j 1 +
      m i 2 * cofactor4 m j 2 + m i 3 * cofactor4 m j 3 =
    if i = j then det4 m else 0 := by
  fin_cases i <;> fin_cases j <;>
    first
    | exact rowCof00 m | exact rowCof01 m | exact rowCof02 m | exact rowCof03 m
    | exact rowCof10 m | exact rowCof11 m | exact rowCof12 m | exact rowCof13 m
    | exact rowCof20 m | exact rowCof21 m | exact rowCof22 m | exact rowCof23 m
    | exact rowCof30 m | exact rowCof31 m | exact rowCof32 m | exact rowCof33 m

/-- C8: for every 4x4 matrix M whose determinant is not fuzzy-equal to 0,
the product M * M.inverse() is fuzzy-equal, componentwise with epsilon 1e-5,
to the 4x4 identity matrix (over the rational embedding the product is even
exactly the identity). -/
theorem C8_mul_inverse_fuzzy_identity (m : Matrix4) (h : ¬ fuzzyEq (det4 m) 0) :
    fuzzyEq4 (mul4 m (inverse4 m)) identity4 := by
  have hd : det4 m ≠ 0 := by
    intro h0
    exact h (by rw [h0]; unfold fuzzyEq EPSILON; norm_num)
  intro i j
  have he : mul4 m (inverse4 m) i j = identity4 i j := by
    show m i 0 * (cofactor4 m j 0 / det4 m) + m i 1 * (cofactor4 m j 1 / det4 m) +
        m i 2 * (cofactor4 m j 2 / det4 m) + m i 3 * (cofactor4 m j 3 / det4 m) =
      identity4 i j
    rw [show m i 0 * (cofactor4 m j 0 / det4 m) + m i 1 * (cofactor4 m j 1 / det4 m) +
        m i 2 * (cofactor4 m j 2 / det4 m) + m i 3 * (cofactor4 m j 3 / det4 m) =
        (m i 0 * cofactor4 m j 0 + m i 1 * cofactor4 m j 1 +
          m i 2 * cofactor4 m j 2 + m i 3 * cofactor4 m j 3) / det4 m from by ring]
    rw [row_cofactor_expansion]
    unfold identity4
    by_cases hij : i = j
    · simp [hij, div_self hd]
    · simp [hij]
  rw [he]
  unfold identity4
  by_cases hij : i = j <;> simp only [hij, if_true, if_false, ite_true, ite_false] <;>
    · unfold fuzzyEq EPSILON; norm_num

/-- Witness for C8 at the translation(5, −3, 2) matrix. -/
theorem C8_mul_inverse_fuzzy_identity_witness :
    fuzzyEq4 (mul4 (translation 5 (-3) 2) (inverse4 (translation 5 (-3) 2))) identity4 :=
  C8_mul_inverse_fuzzy_identity (translation 5 (-3) 2) (by with_unfolding_all decide)

/-- C10: the generic matrix product always reads indices 0..3, so it is
out of bounds (none) for every pair of 2x2 and every pair of 3x3 matrices,
and total for 4x4, where it computes the mul4 entries. -/
theorem C10_generic_mul_bounds :
    (∀ a b : MatrixD 2, mulD a b = none) ∧
    (∀ a b : MatrixD 3, mulD a b = none) ∧
    (∀ a b : MatrixD 4, mulD a b = some
      [[mul4 a b 0 0, mul4 a b 0 1, mul4 a b 0 2, mul4 a b 0 3],
       [mul4 a b 1 0, mul4 a b 1 1, mul4 a b 1 2, mul4 a b 1 3],
       [mul4 a b 2 0, mul4 a b 2 1, mul4 a b 2 2, mul4 a b 2 3],
       [mul4 a b 3 0, mul4 a b 3 1, mul4 a b 3 2, mul4 a b 3 3]]) :=
  ⟨fun _ _ => rfl, fun _ _ => rfl, fun _ _ => rfl⟩

/-- C9: Ray::new fails exactly when the origin is not a point or the
direction is not a vector, and Matrix inversion fails exactly when the
determinant is fuzzy-equal to 0; each succeeds otherwise. -/
theorem C9_failure_conditions :
    (∀ origin direction : Tuple,
      (Ray.new origin direction).isSome ↔ (fuzzyEq origin.w 1 ∧ fuzzyEq direction.w 0)) ∧
    (∀ m : Matrix4, (inverseChecked m).isSome ↔ ¬ fuzzyEq (det4 m) 0) := by
  constructor
  · intro o d
    unfold Ray.new
    split_ifs with h
    · simpa [Tuple.isPoint, Tuple.isVector] using h
    · simp only [Option.isSome_none, Bool.false_eq_true, false_iff]
      simpa [Tuple.isPoint, Tuple.isVector] using h
  · intro m
    unfold inverseChecked
    split_ifs with h
    · simpa [isInvertible4] using h
    · simp only [Option.isSome_none, Bool.false_eq_true, false_iff]
      simpa [isInvertible4, not_not] using h

/-- On a list sorted by t, find? for positive t returns a minimum among the
positive entries. -/
theorem find_pos_is_min (l : List Intersection) (i : Intersection) :
    l.Pairwise intLE → l.find? (fun x => decide (0 < x.t)) = some i →
    ∀ j ∈ l, 0 < j.t → i.t ≤ j.t := by
  induction l with
  | nil => intro _ hf; simp at hf
  | cons a tl ih =>
    intro hs hf
    rcases List.pairwise_cons.mp hs with ⟨hab, htl⟩
    by_cases ha : (0 : ℚ) < a.t
    · rw [List.find?_cons_of_pos _ (by simpa using ha)] at hf
      injection hf with hf
      subst hf
      intro j hj _
      rcases List.mem_cons.mp hj with h | h
      · exact le_of_eq (congrArg Intersection.t h.symm) |>.trans (le_refl _)
      · exact hab j h
    · rw [List.find?_cons_of_neg _ (by simpa using ha)] at hf
      intro j hj hjpos
      rcases List.mem_cons.mp hj with h | h
      · exact absurd (h ▸ hjpos) ha
      · exact ih htl hf j h hjpos

/-- C4: Intersections::new sorts ascending by t, and hit() is the
intersection with the smallest strictly positive t, or none when every entry
has t ≤ 0 (in particular an entry with t ≤ 0 is never selected). -/
theorem C4_sorted_and_hit (xs : List Intersection) :
    ((Intersections.new xs).intersections.Pairwise intLE) ∧
    (∀ i, (Intersections.new xs).hit = some i →
      0 < i.t ∧ i ∈ xs ∧ ∀ j ∈ xs, 0 < j.t → i.t ≤ j.t) ∧
    ((Intersections.new xs).hit = none → ∀ j ∈ xs, j.t ≤ 0) := by
  refine ⟨List.sorted_insertionSort intLE xs, ?_, ?_⟩
  · intro i hf
    unfold Intersections.hit Intersections.new at hf
    refine ⟨by simpa using List.find?_some hf, ?_, ?_⟩
    · exact (List.perm_insertionSort intLE xs).mem_iff.mp (List.mem_of_find?_eq_some hf)
    · intro j hj hjpos
      exact find_pos_is_min _ i (List.sorted_insertionSort intLE xs) hf j
        ((List.perm_insertionSort intLE xs).mem_iff.mpr hj) hjpos
  · intro hf j hj
    unfold Intersections.hit Intersections.new at hf
    have := List.find?_eq_none.mp hf j ((List.perm_insertionSort intLE xs).mem_iff.mpr hj)
    simpa using this

/-- Witness for C4 on the list [5, 7, −3, 2]: hit is the entry with t = 2. -/
theorem C4_sorted_and_hit_witness :
    0 < (⟨2, defaultShape⟩ : Intersection).t ∧
      (⟨2, defaultShape⟩ : Intersection) ∈
        [⟨5, defaultShape⟩, ⟨7, defaultShape⟩, ⟨-3, defaultShape⟩, ⟨2, defaultShape⟩] := by
  have h := (C4_sorted_and_hit
      [⟨5, defaultShape⟩, ⟨7, defaultShape⟩, ⟨-3, defaultShape⟩, ⟨2, defaultShape⟩]).2.1
      ⟨2, defaultShape⟩ (by with_unfolding_all decide)
  exact ⟨h.1, h.2.1⟩

/-- C5: Sphere::intersect returns nothing when the discriminant of the
object-space quadratic is negative and otherwise exactly the two roots
(−b ∓ √disc)/(2a), both recorded; the identity sphere against the ray from
(0,0,−5) along +z records [4, 6]. -/
theorem C5_sphere_quadratic_roots (s : Sphere) (r : Ray) :
    (sphereDisc s r < 0 → (s.intersect r).intersections = []) ∧
    (¬ sphereDisc s r < 0 →
      ((s.intersect r).intersections.map Intersection.t).Perm
        [(-sphereB s r - sqrtQ (sphereDisc s r)) / (2 * sphereA s r),
         (-sphereB s r + sqrtQ (sphereDisc s r)) / (2 * sphereA s r)]) ∧
    ((Sphere.default.intersect ⟨Tuple.point 0 0 (-5), Tuple.vector 0 0 1⟩).intersections.map
      Intersection.t = [4, 6]) := by
  have hd : sphereDisc s r =
      (2 * (sphereObjectRay s r).direction.dot
          ((sphereObjectRay s r).origin.sub (Tuple.point 0 0 0))) ^ 2 -
        4 * ((sphereObjectRay s r).direction.dot (sphereObjectRay s r).direction) *
          (((sphereObjectRay s r).origin.sub (Tuple.point 0 0 0)).dot
              ((sphereObjectRay s r).origin.sub (Tuple.point 0 0 0)) - 1) := rfl
  refine ⟨?_, ?_, by with_unfolding_all decide⟩
  · intro h
    unfold Sphere.intersect
    rw [if_pos (by rw [hd] at h; exact h)]
    rfl
  · intro h
    unfold Sphere.intersect
    rw [if_neg (by rw [hd] at h; exact h)]
    unfold Intersections.new
    exact (List.perm_insertionSort intLE _).map Intersection.t

/-- Witness for C5 on a ray that misses (origin (0,2,−5), direction +z,
discriminant −12), discharging the negative-discriminant hypothesis of the first
conjunct. -/
theorem C5_sphere_quadratic_roots_witness :
    (Sphere.default.intersect ⟨Tuple.point 0 2 (-5), Tuple.vector 0 0 1⟩).intersections = [] :=
  (C5_sphere_quadratic_roots Sphere.default ⟨Tuple.point 0 2 (-5), Tuple.vector 0 0 1⟩).1
    (by with_unfolding_all decide)

/-- C6: lighting returns the ambient term alone when in_shadow; otherwise
ambient + diffuse + specular, where diffuse and specular are black when
light_dot_normal < 0 and specular is black when reflect_dot_eye ≤ 0; the
default-material head-on scenario evaluates to (1.9, 1.9, 1.9). -/
theorem C6_lighting_branches :
    (∀ (m : Material) (p : Tuple) (l : Light) (e n : Tuple),
      m.lighting p l e n true = (m.color.mulC l.intensity).mulS m.ambient) ∧
    (∀ (m : Material) (p : Tuple) (l : Light) (e n : Tuple),
      (l.position.sub p).normalize.dot n < 0 →
        m.lighting p l e n false =
          (((m.color.mulC l.intensity).mulS m.ambient).add Color.black).add Color.black) ∧
    (∀ (m : Material) (p : Tuple) (l : Light) (e n : Tuple),
      0 ≤ (l.position.sub p).normalize.dot n →
        (((l.position.sub p).normalize.reflect n).neg.dot e ≤ 0 →
          m.lighting p l e n false =
            (((m.color.mulC l.intensity).mulS m.ambient).add
              (((m.color.mulC l.intensity).mulS m.diffuse).mulS
                ((l.position.sub p).normalize.dot n))).add Color.black)) ∧
    (Material.default.lighting (Tuple.point 0 0 0) c6Light
      (Tuple.vector 0 0 (-1)) (Tuple.vector 0 0 (-1)) false = Color.new (19/10) (19/10) (19/10)) := by
  refine ⟨fun m p l e n => rfl, ?_, ?_, by with_unfolding_all decide⟩
  · intro m p l e n h
    unfold Material.lighting
    simp only [h, Bool.false_eq_true, if_true, if_false, ite_true, ite_false]
  · intro m p l e n h1 h2
    have h1' : ¬ ((l.position.sub p).normalize.dot n < 0) := not_lt.mpr h1
    unfold Material.lighting
    simp only [h1', h2, Bool.false_eq_true, if_true, if_false, ite_true, ite_false]

/-- Witness for C6 with the light behind the surface (light at (0,0,10),
normal toward −z): lighting collapses to the ambient term. -/
theorem C6_lighting_branches_witness :
    Material.default.lighting (Tuple.point 0 0 0) (Light.point (Tuple.point 0 0 10) Color.white)
      (Tuple.vector 0 0 (-1)) (Tuple.vector 0 0 (-1)) false =
    (((Material.default.color.mulC (Light.point (Tuple.point 0 0 10) Color.white).intensity).mulS
        Material.default.ambient).add Color.black).add Color.black :=
  C6_lighting_branches.2.1 Material.default (Tuple.point 0 0 0)
    (Light.point (Tuple.point 0 0 10) Color.white) (Tuple.vector 0 0 (-1)) (Tuple.vector 0 0 (-1))
    (by with_unfolding_all decide)

/-- C2: Plane::intersect evaluates the parallel test and the root on the
world-space ray: against the plane translated to y = 1 the ray from the
origin along +y yields t = 0, while on the object-space ray (the claimed
behaviour, and what Sphere::intersect does) the root is
t = −origin.y/dir.y = 1. -/
theorem C2_plane_intersect_world_ray :
    (((Shape.plane c2Plane).intersect c2Ray).intersections.map Intersection.t = [0]) ∧
    (¬ (|(c2Ray.transform (inverse4 c2Plane.transform)).direction.y| < EPSILON) ∧
      -(c2Ray.transform (inverse4 c2Plane.transform)).origin.y /
        (c2Ray.transform (inverse4 c2Plane.transform)).direction.y = 1) ∧
    ((0 : ℚ) ≠ 1) := by
  with_unfolding_all decide

/-- C3: Shape::normal_at for a Plane returns the constant (0,1,0) whatever
the transform, while the claimed pipeline (object normal (0,1,0) taken
through the inverse-transpose, w zeroed, normalized — what Sphere::normal_at
does) yields (−4/5, 3/5, 0) for the rotated plane; the two are not even
fuzzy-equal. -/
theorem C3_plane_normal_ignores_transform :
    ((Shape.plane c3Plane).normal_at (Tuple.point 1 2 3) = Tuple.vector 0 1 0) ∧
    ((let world_normal := mulTuple (tranpose (inverse4 c3Matrix)) (Tuple.vector 0 1 0);
      Tuple.normalize ⟨world_normal.x, world_normal.y, world_normal.z, 0⟩) =
        Tuple.vector (-4/5) (3/5) 0) ∧
    ¬ Tuple.fuzzyEqT (Tuple.vector 0 1 0) (Tuple.vector (-4/5) (3/5) 0) := by
  with_unfolding_all decide

/-- C7: the staged Material::lighting never consults a pattern — with no
pattern the spec-modelled lighting agrees with it for every input, but at
the point (1.5, 0, 0), where the default stripe pattern gives black, the
the code lighting still answers from material.color (ambient 0.1 under
shadow), differing from the spec-modelled pattern lighting (ambient of
black). -/
theorem C7_lighting_ignores_pattern :
    (∀ (m : Material) (object : Shape) (point : Tuple) (light : Light) (eyev normalv : Tuple)
      (in_shadow : Bool),
      lightingSpec m none object point light eyev normalv in_shadow =
        m.lighting point light eyev normalv in_shadow) ∧
    (Material.default.lighting (Tuple.point (3/2) 0 0) c6Light
      (Tuple.vector 0 0 (-1)) (Tuple.vector 0 0 (-1)) true = Color.new (1/10) (1/10) (1/10)) ∧
    (lightingSpec Material.default (some (Pattern.stripe StripePattern.default))
      (Shape.plane Plane.default) (Tuple.point (3/2) 0 0) c6Light
      (Tuple.vector 0 0 (-1)) (Tuple.vector 0 0 (-1)) true = Color.new 0 0 0) ∧
    (Color.new (1/10) (1/10) (1/10) ≠ Color.new 0 0 0) := by
  refine ⟨fun m object point light eyev normalv in_shadow => rfl, ?_, ?_, ?_⟩
  · with_unfolding_all decide
  · with_unfolding_all decide
  · with_unfolding_all decide

/-- C1: the render loop ranges over 0..hsize−1 × 0..vsize−1 and so misses the
last row and column of the grid: for the 1×1 camera nothing is rendered at
all — the canvas keeps its initial black at pixel (0,0) for every world —
although the canvas dimensions are (hsize, vsize) as claimed and
world.color_at(ray_for_pixel 0 0) is red for the C1 world. -/
theorem C1_render_misses_last_row_and_column :
    ((c1Camera.render c1World).width = c1Camera.hsize ∧
      (c1Camera.render c1World).height = c1Camera.vsize) ∧
    (∀ w : World, c1Camera.render w = Canvas.new 1 1) ∧
    ((c1Camera.render c1World).pixel_at 0 0 = some Color.black) ∧
    (c1World.color_at (c1Camera.ray_for_pixel 0 0) = Color.new 1 0 0) ∧
    (Color.new 1 0 0 ≠ Color.black) := by
  refine ⟨⟨rfl, rfl⟩, fun w => rfl, by with_unfolding_all decide, ?_, by with_unfolding_all decide⟩
  have hr : c1Camera.ray_for_pixel 0 0 = ⟨Tuple.new 0 0 0 1, Tuple.new 0 0 (-1) 0⟩ := by
    with_unfolding_all decide
  rw [hr]
  with_unfolding_all decide

end RayTracer
